import Mathlib

/-!
# Verification of the robust matrix-keypad scanning engine

Shallow embedding of `src/matrix_robust.c`: the per-cell debounce state
machine of `scan_timer_callback`, the event/error ring buffers, the ghost-
and stuck-key detectors, statistics, and the active/low-power transitions.

Hardware-facing calls (GPIO writes/reads, busy waits, timers) are modelled
as inputs to the scan step: `raw row col` is the pull-up corrected column
read for a row (`true` = contact closed), `now_ms` is the millisecond clock
sample and `scan_time_us` the measured scan duration.  All `uint32_t`
arithmetic is carried out on `Nat` modulo `2^32`.  A registered callback is
modelled by a `Bool` flag plus an observation log recording the events the
callback was handed (the engine itself never inspects a callback's
behaviour, only whether one is registered).
-/

namespace MatrixRobust

/-- `MATRIX_ROWS` from `matrix_robust.h`. -/
def MATRIX_ROWS : Nat := 4

/-- `MATRIX_COLS` from `matrix_robust.h`. -/
def MATRIX_COLS : Nat := 4

/-- `KEY_IDLE` from `matrix_robust.h`. -/
def KEY_IDLE : Nat := 0

/-- `KEY_PRESSED` from `matrix_robust.h`. -/
def KEY_PRESSED : Nat := 1

/-- `KEY_HELD` from `matrix_robust.h`. -/
def KEY_HELD : Nat := 2

/-- `KEY_RELEASED` from `matrix_robust.h`. -/
def KEY_RELEASED : Nat := 3

/-- `ERROR_STUCK_KEY` from `matrix_robust.h`. -/
def ERROR_STUCK_KEY : Nat := 1

/-- `ERROR_GHOST_KEY` from `matrix_robust.h`. -/
def ERROR_GHOST_KEY : Nat := 2

/-- `DEBOUNCE_PRESS_MS` from `matrix_robust.h`. -/
def DEBOUNCE_PRESS_MS : Nat := 20

/-- `DEBOUNCE_RELEASE_MS` from `matrix_robust.h`. -/
def DEBOUNCE_RELEASE_MS : Nat := 50

/-- `STUCK_KEY_TIMEOUT_MS` from `matrix_robust.h`. -/
def STUCK_KEY_TIMEOUT_MS : Nat := 5000

/-- `EVENT_QUEUE_SIZE` from `matrix_robust.c`. -/
def EVENT_QUEUE_SIZE : Nat := 32

/-- `ERROR_QUEUE_SIZE` from `matrix_robust.c`. -/
def ERROR_QUEUE_SIZE : Nat := 8

/-- `2^32`, the modulus of `uint32_t` arithmetic. -/
def U32 : Nat := 4294967296

/-- `uint32_t` increment (`x++` on a `uint32_t`). -/
def u32add1 (a : Nat) : Nat := (a + 1) % U32

/-- `uint32_t` subtraction `a - b` (wrapping). -/
def u32sub (a b : Nat) : Nat := (a + U32 - b % U32) % U32

/-- `KeyEvent` struct from `matrix_robust.h`. -/
structure KeyEvent where
  key : Nat
  state : Nat
  row : Nat
  col : Nat
  timestamp : Nat
deriving DecidableEq, Inhabited

/-- `ErrorEvent` struct from `matrix_robust.h`. -/
structure ErrorEvent where
  error_code : Nat
  row : Nat
  col : Nat
  timestamp : Nat
deriving DecidableEq, Inhabited

/-- `ScanStatistics` struct from `matrix_robust.h`. -/
structure ScanStatistics where
  total_scans : Nat
  total_events : Nat
  total_errors : Nat
  queue_overflows : Nat
  max_scan_time_us : Nat
  avg_scan_time_us : Nat
deriving DecidableEq, Inhabited

/-- Pointwise update of a two-index array (`a[r][c] = v`). -/
def upd2 (f : Nat → Nat → Nat) (r c v : Nat) : Nat → Nat → Nat :=
  fun i j => if i = r ∧ j = c then v else f i j

/-- Pointwise update of a one-index array (`a[i] = v`). -/
def upd1 {α : Type} (f : Nat → α) (i : Nat) (v : α) : Nat → α :=
  fun j => if j = i then v else f j

/-- The engine's static state from `matrix_robust.c`: per-cell debounce
arrays, the two ring buffers with their head/tail indices, statistics,
feature flags, the scanning/wake flags and the callback registrations,
plus the two observation logs recording callback invocations. -/
structure Engine where
  current_row : Nat
  key_state : Nat → Nat → Nat
  key_timestamp : Nat → Nat → Nat
  pressed_keys : Nat → Nat → Nat
  keymap : Nat → Nat → Nat
  event_buf : Nat → KeyEvent
  event_head : Nat
  event_tail : Nat
  error_buf : Nat → ErrorEvent
  error_head : Nat
  error_tail : Nat
  stats : ScanStatistics
  scanning_active : Bool
  wake_armed : Bool
  ghost_detection_enabled : Bool
  stuck_detection_enabled : Bool
  stuck_key_timeout : Nat
  debounce_time_press : Nat
  debounce_time_release : Nat
  key_callback : Bool
  error_callback : Bool
  cb_key_log : List KeyEvent
  cb_error_log : List ErrorEvent

/-- Pressed keys counted by `detect_ghost_key` in the cell's row
(`if (pressed_keys[row][c]) keys_in_row++`). -/
def keys_in_row (e : Engine) (row : Nat) : Nat :=
  (List.range MATRIX_COLS).countP (fun c => e.pressed_keys row c != 0)

/-- Pressed keys counted by `detect_ghost_key` in the cell's column. -/
def keys_in_col (e : Engine) (col : Nat) : Nat :=
  (List.range MATRIX_ROWS).countP (fun r => e.pressed_keys r col != 0)

/-- `detect_ghost_key` from `matrix_robust.c`. -/
def detect_ghost_key (e : Engine) (row col : Nat) : Bool :=
  decide (2 ≤ keys_in_row e row ∧ 2 ≤ keys_in_col e col)

/-- `detect_stuck_key` from `matrix_robust.c`:
`(now - press_time) > stuck_key_timeout` in `uint32_t` arithmetic. -/
def detect_stuck_key (e : Engine) (row col now : Nat) : Bool :=
  decide (e.stuck_key_timeout < u32sub now (e.key_timestamp row col))

/-- `enqueue_event` from `matrix_robust.c`: drop the new item and bump
`stats.queue_overflows` when the ring is full, otherwise write at the head
and advance it.  (The C function's boolean result is ignored by its only
caller, the scan step, so the embedding returns just the new state.) -/
def enqueue_event (ev : KeyEvent) (e : Engine) : Engine :=
  if (e.event_head + 1) % EVENT_QUEUE_SIZE = e.event_tail then
    { e with stats := { e.stats with queue_overflows := u32add1 e.stats.queue_overflows } }
  else
    { e with event_buf := upd1 e.event_buf e.event_head ev,
             event_head := (e.event_head + 1) % EVENT_QUEUE_SIZE }

/-- `enqueue_error` from `matrix_robust.c`: on a full ring the item is
dropped with no counter update; otherwise the item is stored,
`stats.total_errors` is bumped and a registered error callback is invoked
(recorded in `cb_error_log`). -/
def enqueue_error (er : ErrorEvent) (e : Engine) : Engine :=
  if (e.error_head + 1) % ERROR_QUEUE_SIZE = e.error_tail then
    e
  else
    if e.error_callback then
      { e with error_buf := upd1 e.error_buf e.error_head er,
               error_head := (e.error_head + 1) % ERROR_QUEUE_SIZE,
               stats := { e.stats with total_errors := u32add1 e.stats.total_errors },
               cb_error_log := e.cb_error_log ++ [er] }
    else
      { e with error_buf := upd1 e.error_buf e.error_head er,
               error_head := (e.error_head + 1) % ERROR_QUEUE_SIZE,
               stats := { e.stats with total_errors := u32add1 e.stats.total_errors } }

/-- The key-event delivery step of `scan_timer_callback`
(`if (key_callback) key_callback(&event); else enqueue_event(&event);`),
which appears verbatim at both emission sites in the C source. -/
def deliver_key_event (ev : KeyEvent) (e : Engine) : Engine :=
  if e.key_callback then { e with cb_key_log := e.cb_key_log ++ [ev] }
  else enqueue_event ev e

/-- `stats.total_events++` in `scan_timer_callback`. -/
def bump_total_events (e : Engine) : Engine :=
  { e with stats := { e.stats with total_events := u32add1 e.stats.total_events } }

/-- The body of the per-column loop of `scan_timer_callback` for one column
`col` of the active row `row` (matrix_robust.c lines 159-249): the debounce
state machine with ghost/stuck detection, transcribed branch for branch. -/
def process_col (raw : Nat → Nat → Bool) (now row : Nat) (e : Engine) (col : Nat) : Engine :=
  if raw row col then
    if e.key_state row col = KEY_IDLE then
      -- "First detection of press": record the time, stay idle.
      { e with key_timestamp := upd2 e.key_timestamp row col now,
               key_state := upd2 e.key_state row col KEY_IDLE }
    else if e.key_state row col = KEY_IDLE ∧
        e.debounce_time_press ≤ u32sub now (e.key_timestamp row col) then
      -- "Debounced press confirmed"
      if e.ghost_detection_enabled && detect_ghost_key e row col then
        enqueue_error ⟨ERROR_GHOST_KEY, row, col, now⟩ e
      else
        bump_total_events (deliver_key_event
          ⟨e.keymap row col, KEY_PRESSED, row, col, now⟩
          { e with key_state := upd2 e.key_state row col KEY_PRESSED,
                   pressed_keys := upd2 e.pressed_keys row col 1 })
    else if e.key_state row col = KEY_PRESSED then
      -- "Key is held", then stuck-key detection
      if e.stuck_detection_enabled &&
          detect_stuck_key { e with key_state := upd2 e.key_state row col KEY_HELD } row col now then
        enqueue_error ⟨ERROR_STUCK_KEY, row, col, now⟩
          { e with key_state := upd2 e.key_state row col KEY_HELD }
      else
        { e with key_state := upd2 e.key_state row col KEY_HELD }
    else
      e
  else
    if e.key_state row col = KEY_PRESSED ∨ e.key_state row col = KEY_HELD then
      -- "First detection of release"
      { e with key_timestamp := upd2 e.key_timestamp row col now }
    else if (e.key_state row col = KEY_PRESSED ∨ e.key_state row col = KEY_HELD) ∧
        e.debounce_time_release ≤ u32sub now (e.key_timestamp row col) then
      -- "Debounced release confirmed"
      bump_total_events (deliver_key_event
        ⟨e.keymap row col, KEY_RELEASED, row, col, now⟩
        { e with key_state := upd2 e.key_state row col KEY_IDLE,
                 pressed_keys := upd2 e.pressed_keys row col 0 })
    else
      e

/-- `stats.total_scans++` at the top of `scan_timer_callback`. -/
def bump_total_scans (e : Engine) : Engine :=
  { e with stats := { e.stats with total_scans := u32add1 e.stats.total_scans } }

/-- The scan-duration statistics update at the end of `scan_timer_callback`
(matrix_robust.c lines 258-262): running maximum, then the weighted running
average `((avg * (total_scans - 1)) + scan_time) / total_scans` in
`uint32_t` arithmetic.  When `total_scans` has wrapped to `0` the C code
divides by zero; `Nat` division by zero yields `0` here. -/
def update_scan_time_stats (scan_time : Nat) (e : Engine) : Engine :=
  let e1 : Engine :=
    if e.stats.max_scan_time_us < scan_time then
      { e with stats := { e.stats with max_scan_time_us := scan_time } }
    else e
  { e1 with stats := { e1.stats with
      avg_scan_time_us :=
        ((e1.stats.avg_scan_time_us * u32sub e1.stats.total_scans 1) % U32 + scan_time) % U32
          / e1.stats.total_scans } }

/-- `scan_timer_callback` from `matrix_robust.c`: bump `total_scans`, run
the debounce machine over the four columns of the current row, advance the
row cursor mod 4, and update the max/average scan-duration statistics.
`now_ms` models `to_ms_since_boot(get_absolute_time())` (truncated to
`uint32_t`) and `scan_time_us` the measured `time_us_32()` difference. -/
def scan_timer_callback (raw : Nat → Nat → Bool) (now_ms scan_time_us : Nat) (e0 : Engine) : Engine :=
  let e1 := bump_total_scans e0
  let e2 := (List.range MATRIX_COLS).foldl (process_col raw (now_ms % U32) e1.current_row) e1
  let e3 : Engine := { e2 with current_row := (e2.current_row + 1) % MATRIX_ROWS }
  update_scan_time_stats (scan_time_us % U32) e3

/-- `DEFAULT_KEYMAP` from `matrix_robust.c`. -/
def DEFAULT_KEYMAP : Nat → Nat → Nat := fun r c =>
  match r, c with
  | 0, 0 => 0x1 | 0, 1 => 0x2 | 0, 2 => 0x3 | 0, 3 => 0xA
  | 1, 0 => 0x4 | 1, 1 => 0x5 | 1, 2 => 0x6 | 1, 3 => 0xB
  | 2, 0 => 0x7 | 2, 1 => 0x8 | 2, 2 => 0x9 | 2, 3 => 0xC
  | 3, 0 => 0x0 | 3, 1 => 0xF | 3, 2 => 0xE | 3, 3 => 0xD
  | _, _ => 0

/-- All-zero statistics record. -/
def zeroStats : ScanStatistics := ⟨0, 0, 0, 0, 0, 0⟩

/-- The engine state right after `matrix_robust_init`: the C statics are
zero-initialised at load, and `init` clears `key_state`, `key_timestamp`
and `pressed_keys` and installs the default keymap. -/
def matrix_robust_init : Engine :=
  { current_row := 0
    key_state := fun _ _ => KEY_IDLE
    key_timestamp := fun _ _ => 0
    pressed_keys := fun _ _ => 0
    keymap := DEFAULT_KEYMAP
    event_buf := fun _ => ⟨0, 0, 0, 0, 0⟩
    event_head := 0
    event_tail := 0
    error_buf := fun _ => ⟨0, 0, 0, 0⟩
    error_head := 0
    error_tail := 0
    stats := zeroStats
    scanning_active := false
    wake_armed := false
    ghost_detection_enabled := true
    stuck_detection_enabled := true
    stuck_key_timeout := STUCK_KEY_TIMEOUT_MS
    debounce_time_press := DEBOUNCE_PRESS_MS
    debounce_time_release := DEBOUNCE_RELEASE_MS
    key_callback := false
    error_callback := false
    cb_key_log := []
    cb_error_log := [] }

/-- `matrix_robust_get_event` from `matrix_robust.c`: return the oldest
unread event and advance the tail, or report the queue empty. -/
def matrix_robust_get_event (e : Engine) : Option KeyEvent × Engine :=
  if e.event_head = e.event_tail then (none, e)
  else (some (e.event_buf e.event_tail),
        { e with event_tail := (e.event_tail + 1) % EVENT_QUEUE_SIZE })

/-- `matrix_robust_get_error` from `matrix_robust.c`. -/
def matrix_robust_get_error (e : Engine) : Option ErrorEvent × Engine :=
  if e.error_head = e.error_tail then (none, e)
  else (some (e.error_buf e.error_tail),
        { e with error_tail := (e.error_tail + 1) % ERROR_QUEUE_SIZE })

/-- `matrix_robust_start`: arm the periodic scan source unless already
scanning. -/
def matrix_robust_start (e : Engine) : Engine :=
  if e.scanning_active then e else { e with scanning_active := true }

/-- `matrix_robust_stop`: cancel the periodic scan source if scanning. -/
def matrix_robust_stop (e : Engine) : Engine :=
  if e.scanning_active then { e with scanning_active := false } else e

/-- `matrix_robust_enable_wake_interrupt`: arm falling-edge wake interrupts
on all column pins. -/
def matrix_robust_enable_wake_interrupt (e : Engine) : Engine :=
  { e with wake_armed := true }

/-- `matrix_robust_disable_wake_interrupt`. -/
def matrix_robust_disable_wake_interrupt (e : Engine) : Engine :=
  { e with wake_armed := false }

/-- `gpio_interrupt_callback` from `matrix_robust.c`: a wake edge starts
scanning when it is not active. -/
def gpio_interrupt_callback (e : Engine) : Engine :=
  if e.scanning_active then e else matrix_robust_start e

/-- `matrix_robust_enter_low_power`: stop scanning, then arm the wake
interrupts. -/
def matrix_robust_enter_low_power (e : Engine) : Engine :=
  matrix_robust_enable_wake_interrupt (matrix_robust_stop e)

/-- `matrix_robust_exit_low_power`: disarm the wake interrupts, then
resume scanning. -/
def matrix_robust_exit_low_power (e : Engine) : Engine :=
  matrix_robust_start (matrix_robust_disable_wake_interrupt e)

/-- `matrix_robust_reset_statistics`: `memset(&stats, 0, sizeof(stats))`. -/
def matrix_robust_reset_statistics (e : Engine) : Engine :=
  { e with stats := zeroStats }

/-- `matrix_robust_get_statistics`: snapshot copy of the statistics. -/
def matrix_robust_get_statistics (e : Engine) : ScanStatistics :=
  e.stats

/-- Enqueue a list of key events in order (repeated `enqueue_event`). -/
def enqueueEvents (es : List KeyEvent) (e : Engine) : Engine :=
  es.foldl (fun acc ev => enqueue_event ev acc) e

/-- Enqueue a list of error events in order (repeated `enqueue_error`). -/
def enqueueErrors (es : List ErrorEvent) (e : Engine) : Engine :=
  es.foldl (fun acc er => enqueue_error er acc) e

/-- Drain the event queue by repeated `matrix_robust_get_event`, collecting
the returned events (with a fuel bound on the number of calls). -/
def drainEvents : Nat → Engine → List KeyEvent
  | 0, _ => []
  | Nat.succ n, e =>
    match matrix_robust_get_event e with
    | (some ev, e2) => ev :: drainEvents n e2
    | (none, _) => []

/-- Run a sequence of scan steps, one per listed clock sample. -/
def runScans (raw : Nat → Nat → Bool) (times : List Nat) (e : Engine) : Engine :=
  times.foldl (fun acc t => scan_timer_callback raw t 5 acc) e

/-- The spec-side count of debounce-confirmed pressed cells in a row:
cells whose `key_state` is `KEY_PRESSED` or `KEY_HELD`. -/
def debounced_pressed_in_row (e : Engine) (row : Nat) : Nat :=
  (List.range MATRIX_COLS).countP
    (fun c => decide (e.key_state row c = KEY_PRESSED ∨ e.key_state row c = KEY_HELD))

/-- The spec-side count of debounce-confirmed pressed cells in a column. -/
def debounced_pressed_in_col (e : Engine) (col : Nat) : Nat :=
  (List.range MATRIX_ROWS).countP
    (fun r => decide (e.key_state r col = KEY_PRESSED ∨ e.key_state r col = KEY_HELD))

/-- The ghost-buffer synchronisation invariant: each `pressed_keys` entry
is `1` exactly on the debounce-confirmed pressed cells (`KEY_PRESSED` or
`KEY_HELD`) and `0` elsewhere. -/
def GhostSync (e : Engine) : Prop :=
  ∀ r c : Fin 4,
    e.pressed_keys r c =
      if e.key_state r c = KEY_PRESSED ∨ e.key_state r c = KEY_HELD then 1 else 0

instance (e : Engine) : Decidable (GhostSync e) := by
  unfold GhostSync; infer_instance

/-- Componentwise order on the four monotone statistics counters. -/
def statsLE (a b : ScanStatistics) : Prop :=
  a.total_scans ≤ b.total_scans ∧ a.total_events ≤ b.total_events ∧
  a.total_errors ≤ b.total_errors ∧ a.queue_overflows ≤ b.queue_overflows

/-- Raw column read with every contact closed. -/
def rawClosed : Nat → Nat → Bool := fun _ _ => true

/-- Raw column read with every contact open. -/
def rawOpen : Nat → Nat → Bool := fun _ _ => false

/-- The i-th test key event for queue experiments. -/
def mkEv (i : Nat) : KeyEvent := ⟨i % 16, KEY_PRESSED, 0, 0, i⟩

/-- The i-th test error event for queue experiments. -/
def mkEr (i : Nat) : ErrorEvent := ⟨ERROR_STUCK_KEY, 0, 0, i⟩

/-- Engine with cell (0,0) debounce-confirmed Pressed since time 0. -/
def pressedCellEngine : Engine :=
  { matrix_robust_init with
      key_state := fun r c => if r = 0 ∧ c = 0 then KEY_PRESSED else KEY_IDLE,
      pressed_keys := fun r c => if r = 0 ∧ c = 0 then 1 else 0 }

/-- Engine with cell (0,0) in Held state, its last transition at time 0. -/
def heldCellEngine : Engine :=
  { matrix_robust_init with
      key_state := fun r c => if r = 0 ∧ c = 0 then KEY_HELD else KEY_IDLE,
      pressed_keys := fun r c => if r = 0 ∧ c = 0 then 1 else 0 }

/-- Ghost configuration: cells (1,0), (1,2), (0,1) and (2,1) are confirmed
pressed, so row 1 and column 1 each hold two pressed keys; cell (1,1) is
Idle with its press first detected at time 0, and row 1 is the one about
to be scanned. -/
def ghostEngine : Engine :=
  { matrix_robust_init with
      current_row := 1,
      key_state := fun r c =>
        if (r = 1 ∧ c = 0) ∨ (r = 1 ∧ c = 2) ∨ (r = 0 ∧ c = 1) ∨ (r = 2 ∧ c = 1)
        then KEY_HELD else KEY_IDLE,
      pressed_keys := fun r c =>
        if (r = 1 ∧ c = 0) ∨ (r = 1 ∧ c = 2) ∨ (r = 0 ∧ c = 1) ∨ (r = 2 ∧ c = 1)
        then 1 else 0 }

/-- The event queue after enqueueing the 31 test events E1..E31. -/
def q31Engine : Engine := enqueueEvents ((List.range 31).map mkEv) matrix_robust_init

/-- The error queue after enqueueing the 7 test errors F1..F7 (making the
8-slot error ring full: `head + 1 ≡ tail (mod 8)`). -/
def errFullEngine : Engine := enqueueErrors ((List.range 7).map mkEr) matrix_robust_init

/-- Engine whose event and error rings are both full. -/
def bothFullEngine : Engine :=
  { matrix_robust_init with event_head := 31, error_head := 7 }

/-- Engine with both direct callbacks registered. -/
def cbEngine : Engine :=
  { matrix_robust_init with key_callback := true, error_callback := true }

/-- Engine that is actively scanning. -/
def activeEngine : Engine := { matrix_robust_init with scanning_active := true }

/-- Engine whose `total_scans` counter sits at the `uint32_t` maximum. -/
def wrapEngine : Engine :=
  { matrix_robust_init with stats := { zeroStats with total_scans := 4294967295 } }

@[simp] theorem upd2_apply (f : Nat → Nat → Nat) (r c v i j : Nat) :
    upd2 f r c v i j = if i = r ∧ j = c then v else f i j := rfl

@[simp] theorem enqueue_event_event_tail (ev : KeyEvent) (e : Engine) :
    (enqueue_event ev e).event_tail = e.event_tail := by
  unfold enqueue_event; split_ifs <;> rfl

@[simp] theorem enqueue_event_cb_key_log (ev : KeyEvent) (e : Engine) :
    (enqueue_event ev e).cb_key_log = e.cb_key_log := by
  unfold enqueue_event; split_ifs <;> rfl

@[simp] theorem enqueue_event_key_state (ev : KeyEvent) (e : Engine) :
    (enqueue_event ev e).key_state = e.key_state := by
  unfold enqueue_event; split_ifs <;> rfl

@[simp] theorem enqueue_event_key_timestamp (ev : KeyEvent) (e : Engine) :
    (enqueue_event ev e).key_timestamp = e.key_timestamp := by
  unfold enqueue_event; split_ifs <;> rfl

@[simp] theorem enqueue_event_pressed_keys (ev : KeyEvent) (e : Engine) :
    (enqueue_event ev e).pressed_keys = e.pressed_keys := by
  unfold enqueue_event; split_ifs <;> rfl

@[simp] theorem enqueue_event_error_head (ev : KeyEvent) (e : Engine) :
    (enqueue_event ev e).error_head = e.error_head := by
  unfold enqueue_event; split_ifs <;> rfl

@[simp] theorem enqueue_event_error_tail (ev : KeyEvent) (e : Engine) :
    (enqueue_event ev e).error_tail = e.error_tail := by
  unfold enqueue_event; split_ifs <;> rfl

@[simp] theorem enqueue_event_error_buf (ev : KeyEvent) (e : Engine) :
    (enqueue_event ev e).error_buf = e.error_buf := by
  unfold enqueue_event; split_ifs <;> rfl

@[simp] theorem enqueue_event_cb_error_log (ev : KeyEvent) (e : Engine) :
    (enqueue_event ev e).cb_error_log = e.cb_error_log := by
  unfold enqueue_event; split_ifs <;> rfl

@[simp] theorem enqueue_event_current_row (ev : KeyEvent) (e : Engine) :
    (enqueue_event ev e).current_row = e.current_row := by
  unfold enqueue_event; split_ifs <;> rfl

@[simp] theorem enqueue_event_total_scans (ev : KeyEvent) (e : Engine) :
    (enqueue_event ev e).stats.total_scans = e.stats.total_scans := by
  unfold enqueue_event; split_ifs <;> rfl

@[simp] theorem enqueue_event_total_events (ev : KeyEvent) (e : Engine) :
    (enqueue_event ev e).stats.total_events = e.stats.total_events := by
  unfold enqueue_event; split_ifs <;> rfl

@[simp] theorem enqueue_event_total_errors (ev : KeyEvent) (e : Engine) :
    (enqueue_event ev e).stats.total_errors = e.stats.total_errors := by
  unfold enqueue_event; split_ifs <;> rfl

@[simp] theorem enqueue_event_max_scan (ev : KeyEvent) (e : Engine) :
    (enqueue_event ev e).stats.max_scan_time_us = e.stats.max_scan_time_us := by
  unfold enqueue_event; split_ifs <;> rfl

@[simp] theorem enqueue_event_avg_scan (ev : KeyEvent) (e : Engine) :
    (enqueue_event ev e).stats.avg_scan_time_us = e.stats.avg_scan_time_us := by
  unfold enqueue_event; split_ifs <;> rfl

@[simp] theorem enqueue_error_event_head (er : ErrorEvent) (e : Engine) :
    (enqueue_error er e).event_head = e.event_head := by
  unfold enqueue_error; split_ifs <;> rfl

@[simp] theorem enqueue_error_event_tail (er : ErrorEvent) (e : Engine) :
    (enqueue_error er e).event_tail = e.event_tail := by
  unfold enqueue_error; split_ifs <;> rfl

@[simp] theorem enqueue_error_event_buf (er : ErrorEvent) (e : Engine) :
    (enqueue_error er e).event_buf = e.event_buf := by
  unfold enqueue_error; split_ifs <;> rfl

@[simp] theorem enqueue_error_cb_key_log (er : ErrorEvent) (e : Engine) :
    (enqueue_error er e).cb_key_log = e.cb_key_log := by
  unfold enqueue_error; split_ifs <;> rfl

@[simp] theorem enqueue_error_key_state (er : ErrorEvent) (e : Engine) :
    (enqueue_error er e).key_state = e.key_state := by
  unfold enqueue_error; split_ifs <;> rfl

@[simp] theorem enqueue_error_key_timestamp (er : ErrorEvent) (e : Engine) :
    (enqueue_error er e).key_timestamp = e.key_timestamp := by
  unfold enqueue_error; split_ifs <;> rfl

@[simp] theorem enqueue_error_pressed_keys (er : ErrorEvent) (e : Engine) :
    (enqueue_error er e).pressed_keys = e.pressed_keys := by
  unfold enqueue_error; split_ifs <;> rfl

@[simp] theorem enqueue_error_error_tail (er : ErrorEvent) (e : Engine) :
    (enqueue_error er e).error_tail = e.error_tail := by
  unfold enqueue_error; split_ifs <;> rfl

@[simp] theorem enqueue_error_current_row (er : ErrorEvent) (e : Engine) :
    (enqueue_error er e).current_row = e.current_row := by
  unfold enqueue_error; split_ifs <;> rfl

@[simp] theorem enqueue_error_total_scans (er : ErrorEvent) (e : Engine) :
    (enqueue_error er e).stats.total_scans = e.stats.total_scans := by
  unfold enqueue_error; split_ifs <;> rfl

@[simp] theorem enqueue_error_total_events (er : ErrorEvent) (e : Engine) :
    (enqueue_error er e).stats.total_events = e.stats.total_events := by
  unfold enqueue_error; split_ifs <;> rfl

@[simp] theorem enqueue_error_queue_overflows (er : ErrorEvent) (e : Engine) :
    (enqueue_error er e).stats.queue_overflows = e.stats.queue_overflows := by
  unfold enqueue_error; split_ifs <;> rfl

@[simp] theorem enqueue_error_max_scan (er : ErrorEvent) (e : Engine) :
    (enqueue_error er e).stats.max_scan_time_us = e.stats.max_scan_time_us := by
  unfold enqueue_error; split_ifs <;> rfl

@[simp] theorem enqueue_error_avg_scan (er : ErrorEvent) (e : Engine) :
    (enqueue_error er e).stats.avg_scan_time_us = e.stats.avg_scan_time_us := by
  unfold enqueue_error; split_ifs <;> rfl

theorem enqueue_error_total_errors (er : ErrorEvent) (e : Engine) :
    (enqueue_error er e).stats.total_errors = e.stats.total_errors ∨
    (enqueue_error er e).stats.total_errors = u32add1 e.stats.total_errors := by
  unfold enqueue_error
  split_ifs
  · exact Or.inl rfl
  · exact Or.inr rfl
  · exact Or.inr rfl

@[simp] theorem deliver_key_event_key_state (ev : KeyEvent) (e : Engine) :
    (deliver_key_event ev e).key_state = e.key_state := by
  unfold deliver_key_event; split_ifs <;> simp

@[simp] theorem deliver_key_event_key_timestamp (ev : KeyEvent) (e : Engine) :
    (deliver_key_event ev e).key_timestamp = e.key_timestamp := by
  unfold deliver_key_event; split_ifs <;> simp

@[simp] theorem deliver_key_event_pressed_keys (ev : KeyEvent) (e : Engine) :
    (deliver_key_event ev e).pressed_keys = e.pressed_keys := by
  unfold deliver_key_event; split_ifs <;> simp

@[simp] theorem deliver_key_event_error_head (ev : KeyEvent) (e : Engine) :
    (deliver_key_event ev e).error_head = e.error_head := by
  unfold deliver_key_event; split_ifs <;> simp

@[simp] theorem deliver_key_event_error_tail (ev : KeyEvent) (e : Engine) :
    (deliver_key_event ev e).error_tail = e.error_tail := by
  unfold deliver_key_event; split_ifs <;> simp

@[simp] theorem deliver_key_event_error_buf (ev : KeyEvent) (e : Engine) :
    (deliver_key_event ev e).error_buf = e.error_buf := by
  unfold deliver_key_event; split_ifs <;> simp

@[simp] theorem deliver_key_event_cb_error_log (ev : KeyEvent) (e : Engine) :
    (deliver_key_event ev e).cb_error_log = e.cb_error_log := by
  unfold deliver_key_event; split_ifs <;> simp

@[simp] theorem deliver_key_event_event_tail (ev : KeyEvent) (e : Engine) :
    (deliver_key_event ev e).event_tail = e.event_tail := by
  unfold deliver_key_event; split_ifs <;> simp

@[simp] theorem deliver_key_event_current_row (ev : KeyEvent) (e : Engine) :
    (deliver_key_event ev e).current_row = e.current_row := by
  unfold deliver_key_event; split_ifs <;> simp

@[simp] theorem deliver_key_event_total_scans (ev : KeyEvent) (e : Engine) :
    (deliver_key_event ev e).stats.total_scans = e.stats.total_scans := by
  unfold deliver_key_event; split_ifs <;> simp

@[simp] theorem deliver_key_event_total_events (ev : KeyEvent) (e : Engine) :
    (deliver_key_event ev e).stats.total_events = e.stats.total_events := by
  unfold deliver_key_event; split_ifs <;> simp

@[simp] theorem deliver_key_event_total_errors (ev : KeyEvent) (e : Engine) :
    (deliver_key_event ev e).stats.total_errors = e.stats.total_errors := by
  unfold deliver_key_event; split_ifs <;> simp

@[simp] theorem deliver_key_event_max_scan (ev : KeyEvent) (e : Engine) :
    (deliver_key_event ev e).stats.max_scan_time_us = e.stats.max_scan_time_us := by
  unfold deliver_key_event; split_ifs <;> simp

@[simp] theorem deliver_key_event_avg_scan (ev : KeyEvent) (e : Engine) :
    (deliver_key_event ev e).stats.avg_scan_time_us = e.stats.avg_scan_time_us := by
  unfold deliver_key_event; split_ifs <;> simp

@[simp] theorem bump_total_events_event_head (e : Engine) :
    (bump_total_events e).event_head = e.event_head := rfl

@[simp] theorem bump_total_events_event_tail (e : Engine) :
    (bump_total_events e).event_tail = e.event_tail := rfl

@[simp] theorem bump_total_events_event_buf (e : Engine) :
    (bump_total_events e).event_buf = e.event_buf := rfl

@[simp] theorem bump_total_events_cb_key_log (e : Engine) :
    (bump_total_events e).cb_key_log = e.cb_key_log := rfl

@[simp] theorem bump_total_events_key_state (e : Engine) :
    (bump_total_events e).key_state = e.key_state := rfl

@[simp] theorem bump_total_events_key_timestamp (e : Engine) :
    (bump_total_events e).key_timestamp = e.key_timestamp := rfl

@[simp] theorem bump_total_events_pressed_keys (e : Engine) :
    (bump_total_events e).pressed_keys = e.pressed_keys := rfl

@[simp] theorem bump_total_events_error_head (e : Engine) :
    (bump_total_events e).error_head = e.error_head := rfl

@[simp] theorem bump_total_events_error_tail (e : Engine) :
    (bump_total_events e).error_tail = e.error_tail := rfl

@[simp] theorem bump_total_events_error_buf (e : Engine) :
    (bump_total_events e).error_buf = e.error_buf := rfl

@[simp] theorem bump_total_events_cb_error_log (e : Engine) :
    (bump_total_events e).cb_error_log = e.cb_error_log := rfl

@[simp] theorem bump_total_events_current_row (e : Engine) :
    (bump_total_events e).current_row = e.current_row := rfl

@[simp] theorem bump_total_events_total_scans (e : Engine) :
    (bump_total_events e).stats.total_scans = e.stats.total_scans := rfl

@[simp] theorem bump_total_events_total_errors (e : Engine) :
    (bump_total_events e).stats.total_errors = e.stats.total_errors := rfl

@[simp] theorem bump_total_events_queue_overflows (e : Engine) :
    (bump_total_events e).stats.queue_overflows = e.stats.queue_overflows := rfl

@[simp] theorem bump_total_events_max_scan (e : Engine) :
    (bump_total_events e).stats.max_scan_time_us = e.stats.max_scan_time_us := rfl

@[simp] theorem bump_total_events_avg_scan (e : Engine) :
    (bump_total_events e).stats.avg_scan_time_us = e.stats.avg_scan_time_us := rfl

theorem process_col_frame (raw : Nat → Nat → Bool) (now row : Nat) (e : Engine) (col : Nat) :
    (process_col raw now row e col).event_head = e.event_head ∧
    (process_col raw now row e col).event_tail = e.event_tail ∧
    (process_col raw now row e col).event_buf = e.event_buf ∧
    (process_col raw now row e col).cb_key_log = e.cb_key_log ∧
    (process_col raw now row e col).current_row = e.current_row ∧
    (process_col raw now row e col).error_tail = e.error_tail ∧
    (process_col raw now row e col).stats.total_scans = e.stats.total_scans ∧
    (process_col raw now row e col).stats.total_events = e.stats.total_events ∧
    (process_col raw now row e col).stats.queue_overflows = e.stats.queue_overflows ∧
    (process_col raw now row e col).stats.max_scan_time_us = e.stats.max_scan_time_us ∧
    (process_col raw now row e col).stats.avg_scan_time_us = e.stats.avg_scan_time_us := by
  unfold process_col
  split_ifs <;> simp_all


theorem process_col_total_errors (raw : Nat → Nat → Bool) (now row : Nat) (e : Engine) (col : Nat) :
    (process_col raw now row e col).stats.total_errors = e.stats.total_errors ∨
    (process_col raw now row e col).stats.total_errors = u32add1 e.stats.total_errors := by
  unfold process_col
  split_ifs <;>
    first
      | exact Or.inl rfl
      | exact enqueue_error_total_errors _ _
      | simp_all

theorem process_col_keeps_idle (raw : Nat → Nat → Bool) (now row : Nat) (e : Engine)
    (col r c : Nat) (h : e.key_state r c = KEY_IDLE) :
    (process_col raw now row e col).key_state r c = KEY_IDLE := by
  unfold process_col
  split_ifs <;> simp_all [KEY_IDLE, KEY_PRESSED, KEY_HELD] <;>
    by_cases hx : r = row ∧ c = col <;> simp_all

theorem process_col_no_new_pressed (raw : Nat → Nat → Bool) (now row : Nat) (e : Engine)
    (col r c : Nat) (h : (process_col raw now row e col).key_state r c = KEY_PRESSED) :
    e.key_state r c = KEY_PRESSED := by
  unfold process_col at h
  split_ifs at h <;> simp_all [KEY_IDLE, KEY_PRESSED, KEY_HELD] <;>
    by_cases hx : r = row ∧ c = col <;> simp_all

theorem process_col_open_keeps (raw : Nat → Nat → Bool) (now row : Nat) (e : Engine)
    (col r c : Nat) (hraw : raw r c = false) :
    (process_col raw now row e col).key_state r c = e.key_state r c := by
  unfold process_col
  split_ifs <;> simp_all [KEY_IDLE, KEY_PRESSED, KEY_HELD] <;>
    by_cases hx : r = row ∧ c = col <;> simp_all

theorem process_col_error_frame_of_not_pressed (raw : Nat → Nat → Bool) (now row : Nat)
    (e : Engine) (col : Nat) (h : e.key_state row col ≠ KEY_PRESSED) :
    (process_col raw now row e col).error_head = e.error_head ∧
    (process_col raw now row e col).error_buf = e.error_buf ∧
    (process_col raw now row e col).cb_error_log = e.cb_error_log ∧
    (process_col raw now row e col).stats.total_errors = e.stats.total_errors := by
  unfold process_col
  split_ifs <;> simp_all

theorem process_col_ghost_sync (raw : Nat → Nat → Bool) (now row : Nat) (e : Engine)
    (col : Nat) (h : GhostSync e) :
    GhostSync (process_col raw now row e col) := by
  unfold process_col
  split_ifs <;> intro r c <;> have hi := h r c <;>
    simp_all [KEY_IDLE, KEY_PRESSED, KEY_HELD] <;>
    split_ifs <;> simp_all


@[simp] theorem bump_total_scans_event_head (e : Engine) :
    (bump_total_scans e).event_head = e.event_head := rfl

@[simp] theorem bump_total_scans_event_tail (e : Engine) :
    (bump_total_scans e).event_tail = e.event_tail := rfl

@[simp] theorem bump_total_scans_event_buf (e : Engine) :
    (bump_total_scans e).event_buf = e.event_buf := rfl

@[simp] theorem bump_total_scans_cb_key_log (e : Engine) :
    (bump_total_scans e).cb_key_log = e.cb_key_log := rfl

@[simp] theorem bump_total_scans_key_state (e : Engine) :
    (bump_total_scans e).key_state = e.key_state := rfl

@[simp] theorem bump_total_scans_key_timestamp (e : Engine) :
    (bump_total_scans e).key_timestamp = e.key_timestamp := rfl

@[simp] theorem bump_total_scans_pressed_keys (e : Engine) :
    (bump_total_scans e).pressed_keys = e.pressed_keys := rfl

@[simp] theorem bump_total_scans_error_head (e : Engine) :
    (bump_total_scans e).error_head = e.error_head := rfl

@[simp] theorem bump_total_scans_error_tail (e : Engine) :
    (bump_total_scans e).error_tail = e.error_tail := rfl

@[simp] theorem bump_total_scans_error_buf (e : Engine) :
    (bump_total_scans e).error_buf = e.error_buf := rfl

@[simp] theorem bump_total_scans_cb_error_log (e : Engine) :
    (bump_total_scans e).cb_error_log = e.cb_error_log := rfl

@[simp] theorem bump_total_scans_current_row (e : Engine) :
    (bump_total_scans e).current_row = e.current_row := rfl

@[simp] theorem bump_total_scans_total_scans (e : Engine) :
    (bump_total_scans e).stats.total_scans = u32add1 e.stats.total_scans := rfl

@[simp] theorem bump_total_scans_total_events (e : Engine) :
    (bump_total_scans e).stats.total_events = e.stats.total_events := rfl

@[simp] theorem bump_total_scans_total_errors (e : Engine) :
    (bump_total_scans e).stats.total_errors = e.stats.total_errors := rfl

@[simp] theorem bump_total_scans_queue_overflows (e : Engine) :
    (bump_total_scans e).stats.queue_overflows = e.stats.queue_overflows := rfl

@[simp] theorem update_scan_time_stats_event_head (t : Nat) (e : Engine) :
    (update_scan_time_stats t e).event_head = e.event_head := by
  simp only [update_scan_time_stats]; split_ifs <;> rfl

@[simp] theorem update_scan_time_stats_event_tail (t : Nat) (e : Engine) :
    (update_scan_time_stats t e).event_tail = e.event_tail := by
  simp only [update_scan_time_stats]; split_ifs <;> rfl

@[simp] theorem update_scan_time_stats_event_buf (t : Nat) (e : Engine) :
    (update_scan_time_stats t e).event_buf = e.event_buf := by
  simp only [update_scan_time_stats]; split_ifs <;> rfl

@[simp] theorem update_scan_time_stats_cb_key_log (t : Nat) (e : Engine) :
    (update_scan_time_stats t e).cb_key_log = e.cb_key_log := by
  simp only [update_scan_time_stats]; split_ifs <;> rfl

@[simp] theorem update_scan_time_stats_key_state (t : Nat) (e : Engine) :
    (update_scan_time_stats t e).key_state = e.key_state := by
  simp only [update_scan_time_stats]; split_ifs <;> rfl

@[simp] theorem update_scan_time_stats_key_timestamp (t : Nat) (e : Engine) :
    (update_scan_time_stats t e).key_timestamp = e.key_timestamp := by
  simp only [update_scan_time_stats]; split_ifs <;> rfl

@[simp] theorem update_scan_time_stats_pressed_keys (t : Nat) (e : Engine) :
    (update_scan_time_stats t e).pressed_keys = e.pressed_keys := by
  simp only [update_scan_time_stats]; split_ifs <;> rfl

@[simp] theorem update_scan_time_stats_error_head (t : Nat) (e : Engine) :
    (update_scan_time_stats t e).error_head = e.error_head := by
  simp only [update_scan_time_stats]; split_ifs <;> rfl

@[simp] theorem update_scan_time_stats_error_tail (t : Nat) (e : Engine) :
    (update_scan_time_stats t e).error_tail = e.error_tail := by
  simp only [update_scan_time_stats]; split_ifs <;> rfl

@[simp] theorem update_scan_time_stats_error_buf (t : Nat) (e : Engine) :
    (update_scan_time_stats t e).error_buf = e.error_buf := by
  simp only [update_scan_time_stats]; split_ifs <;> rfl

@[simp] theorem update_scan_time_stats_cb_error_log (t : Nat) (e : Engine) :
    (update_scan_time_stats t e).cb_error_log = e.cb_error_log := by
  simp only [update_scan_time_stats]; split_ifs <;> rfl

@[simp] theorem update_scan_time_stats_current_row (t : Nat) (e : Engine) :
    (update_scan_time_stats t e).current_row = e.current_row := by
  simp only [update_scan_time_stats]; split_ifs <;> rfl

@[simp] theorem update_scan_time_stats_total_scans (t : Nat) (e : Engine) :
    (update_scan_time_stats t e).stats.total_scans = e.stats.total_scans := by
  simp only [update_scan_time_stats]; split_ifs <;> rfl

@[simp] theorem update_scan_time_stats_total_events (t : Nat) (e : Engine) :
    (update_scan_time_stats t e).stats.total_events = e.stats.total_events := by
  simp only [update_scan_time_stats]; split_ifs <;> rfl

@[simp] theorem update_scan_time_stats_total_errors (t : Nat) (e : Engine) :
    (update_scan_time_stats t e).stats.total_errors = e.stats.total_errors := by
  simp only [update_scan_time_stats]; split_ifs <;> rfl

@[simp] theorem update_scan_time_stats_queue_overflows (t : Nat) (e : Engine) :
    (update_scan_time_stats t e).stats.queue_overflows = e.stats.queue_overflows := by
  simp only [update_scan_time_stats]; split_ifs <;> rfl

/-- Any property preserved by every `process_col` application is preserved
by the per-row column fold of the scan step. -/
theorem foldl_process_col_preserve (raw : Nat → Nat → Bool) (now row : Nat)
    (P : Engine → Prop) (hP : ∀ e col, P e → P (process_col raw now row e col)) :
    ∀ (l : List Nat) (e : Engine), P e → P (l.foldl (process_col raw now row) e) := by
  intro l
  induction l with
  | nil => exact fun e h => h
  | cons a t ih => exact fun e h => ih _ (hP e a h)

theorem u32add1_of_lt {a : Nat} (h : a + 1 < U32) : u32add1 a = a + 1 := by
  unfold u32add1 U32 at *
  omega

/-- The scan step leaves the key-event queue, the key-callback log, the
`total_events` and `queue_overflows` counters and the error-queue tail
untouched, and bumps `total_scans` exactly once: the key-event emission
sites of `scan_timer_callback` are dead code. -/
theorem scan_timer_callback_key_frame (raw : Nat → Nat → Bool) (now st : Nat) (e : Engine) :
    (scan_timer_callback raw now st e).event_head = e.event_head ∧
    (scan_timer_callback raw now st e).event_tail = e.event_tail ∧
    (scan_timer_callback raw now st e).event_buf = e.event_buf ∧
    (scan_timer_callback raw now st e).cb_key_log = e.cb_key_log ∧
    (scan_timer_callback raw now st e).error_tail = e.error_tail ∧
    (scan_timer_callback raw now st e).stats.total_events = e.stats.total_events ∧
    (scan_timer_callback raw now st e).stats.queue_overflows = e.stats.queue_overflows ∧
    (scan_timer_callback raw now st e).stats.total_scans = u32add1 e.stats.total_scans := by
  have hfold := foldl_process_col_preserve raw (now % U32) e.current_row
    (fun x => x.event_head = e.event_head ∧ x.event_tail = e.event_tail ∧
      x.event_buf = e.event_buf ∧ x.cb_key_log = e.cb_key_log ∧
      x.error_tail = e.error_tail ∧ x.stats.total_events = e.stats.total_events ∧
      x.stats.queue_overflows = e.stats.queue_overflows ∧
      x.stats.total_scans = u32add1 e.stats.total_scans)
    (fun x col hx => by
      obtain ⟨a1, a2, a3, a4, a5, a6, a7, a8, a9, a10, a11⟩ :=
        process_col_frame raw (now % U32) e.current_row x col
      exact ⟨a1.trans hx.1, a2.trans hx.2.1, a3.trans hx.2.2.1, a4.trans hx.2.2.2.1,
        a6.trans hx.2.2.2.2.1, a8.trans hx.2.2.2.2.2.1, a9.trans hx.2.2.2.2.2.2.1,
        a7.trans hx.2.2.2.2.2.2.2⟩)
    (List.range MATRIX_COLS) (bump_total_scans e)
    ⟨rfl, rfl, rfl, rfl, rfl, rfl, rfl, rfl⟩
  obtain ⟨b1, b2, b3, b4, b5, b6, b7, b8⟩ := hfold
  unfold scan_timer_callback
  refine ⟨?_, ?_, ?_, ?_, ?_, ?_, ?_, ?_⟩ <;> simp [b1, b2, b3, b4, b5, b6, b7, b8]


/-! ## Claims -/

/-- Claim C1.  The claim states that a raw-closed signal held continuously
for at least `debounce_press_ms` produces exactly one Pressed KeyEvent and
leaves the cell Pressed.  On the code the opposite holds: as long as every
cell is Idle (the state after `matrix_robust_init`), a scan step leaves
every cell Idle and produces no KeyEvent whatsoever — for any raw input
and any clock value, including ones far past the debounce window — because
the `current_state == KEY_IDLE` arm re-records the timestamp on every scan,
making the press-confirmation `else if` arm unreachable. -/
theorem C1_debounced_press_unreachable (raw : Nat → Nat → Bool) (now st : Nat) (e : Engine)
    (h : ∀ r c : Fin 4, e.key_state r c = KEY_IDLE) :
    (∀ r c : Fin 4, (scan_timer_callback raw now st e).key_state r c = KEY_IDLE) ∧
    (scan_timer_callback raw now st e).event_head = e.event_head ∧
    (scan_timer_callback raw now st e).event_tail = e.event_tail ∧
    (scan_timer_callback raw now st e).cb_key_log = e.cb_key_log ∧
    (scan_timer_callback raw now st e).stats.total_events = e.stats.total_events := by
  obtain ⟨b1, b2, b3, b4, b5, b6, b7, b8⟩ := scan_timer_callback_key_frame raw now st e
  refine ⟨?_, b1, b2, b4, b6⟩
  have hfold := foldl_process_col_preserve raw (now % U32) e.current_row
    (fun x => ∀ r c : Fin 4, x.key_state (r : Nat) (c : Nat) = KEY_IDLE)
    (fun x col hx r c =>
      process_col_keeps_idle raw (now % U32) e.current_row x col r c (hx r c))
    (List.range MATRIX_COLS) (bump_total_scans e) (fun r c => h r c)
  intro r c
  unfold scan_timer_callback
  simp only [update_scan_time_stats_key_state, bump_total_scans_current_row]
  exact hfold r c

/-- Witness for C1: the freshly initialised engine is all-Idle, and one
scan step with every contact closed at time 30 (past the 20 ms window)
still yields no Pressed event. -/
theorem C1_debounced_press_unreachable_witness :
    (∀ r c : Fin 4, (scan_timer_callback rawClosed 30 5 matrix_robust_init).key_state r c = KEY_IDLE) ∧
    (scan_timer_callback rawClosed 30 5 matrix_robust_init).event_head = matrix_robust_init.event_head ∧
    (scan_timer_callback rawClosed 30 5 matrix_robust_init).event_tail = matrix_robust_init.event_tail ∧
    (scan_timer_callback rawClosed 30 5 matrix_robust_init).cb_key_log = matrix_robust_init.cb_key_log ∧
    (scan_timer_callback rawClosed 30 5 matrix_robust_init).stats.total_events = matrix_robust_init.stats.total_events :=
  C1_debounced_press_unreachable rawClosed 30 5 matrix_robust_init (by decide)

/-- Claim C2.  The claim states that a Pressed/Held cell whose contact has
read open continuously for `debounce_release_ms` emits exactly one Released
KeyEvent and returns to Idle.  On the code, a Pressed or Held cell whose
raw contact reads open keeps its state unchanged under every scan step —
for any clock value, however far past the release window — and no KeyEvent
is emitted: the release-confirmation `else if` arm is unreachable because
the first arm of the release chain re-records the timestamp on every
scan. -/
theorem C2_debounced_release_unreachable (raw : Nat → Nat → Bool) (now st : Nat) (e : Engine)
    (r c : Nat) (hraw : raw r c = false)
    (h : e.key_state r c = KEY_PRESSED ∨ e.key_state r c = KEY_HELD) :
    (scan_timer_callback raw now st e).key_state r c = e.key_state r c ∧
    (scan_timer_callback raw now st e).event_head = e.event_head ∧
    (scan_timer_callback raw now st e).event_tail = e.event_tail ∧
    (scan_timer_callback raw now st e).cb_key_log = e.cb_key_log ∧
    (scan_timer_callback raw now st e).stats.total_events = e.stats.total_events := by
  obtain ⟨b1, b2, b3, b4, b5, b6, b7, b8⟩ := scan_timer_callback_key_frame raw now st e
  refine ⟨?_, b1, b2, b4, b6⟩
  have hfold := foldl_process_col_preserve raw (now % U32) e.current_row
    (fun x => x.key_state r c = e.key_state r c)
    (fun x col hx =>
      (process_col_open_keeps raw (now % U32) e.current_row x col r c hraw).trans hx)
    (List.range MATRIX_COLS) (bump_total_scans e) rfl
  unfold scan_timer_callback
  simp only [update_scan_time_stats_key_state, bump_total_scans_current_row]
  exact hfold

/-- Witness for C2: cell (0,0) is Pressed since time 0; a scan step with
all contacts open at time 1000000 (far beyond the 50 ms release window)
leaves it Pressed and emits nothing. -/
theorem C2_debounced_release_unreachable_witness :
    (scan_timer_callback rawOpen 1000000 5 pressedCellEngine).key_state 0 0 = pressedCellEngine.key_state 0 0 ∧
    (scan_timer_callback rawOpen 1000000 5 pressedCellEngine).event_head = pressedCellEngine.event_head ∧
    (scan_timer_callback rawOpen 1000000 5 pressedCellEngine).event_tail = pressedCellEngine.event_tail ∧
    (scan_timer_callback rawOpen 1000000 5 pressedCellEngine).cb_key_log = pressedCellEngine.cb_key_log ∧
    (scan_timer_callback rawOpen 1000000 5 pressedCellEngine).stats.total_events = pressedCellEngine.stats.total_events :=
  C2_debounced_release_unreachable rawOpen 1000000 5 pressedCellEngine 0 0 rfl
    (Or.inl (by decide))

/-- Claim C3.  The claim states that with stuck detection enabled, a Held
cell whose elapsed time exceeds `stuck_key_timeout_ms` makes every scan
step of its row emit a StuckKey error.  On the code no StuckKey error is
emitted at all in this situation: the stuck check runs only in the branch
whose guard is `current_state == KEY_PRESSED` (the single step that
promotes Pressed to Held) and no branch at all handles a Held cell with
its contact closed, so a scan step over a row containing no Pressed cell
leaves the error queue, the error-callback log and `total_errors`
untouched even when a Held cell is long past the timeout. -/
theorem C3_no_stuck_error_while_held (raw : Nat → Nat → Bool) (now st : Nat) (e : Engine)
    (c : Nat) (hen : e.stuck_detection_enabled = true)
    (hheld : e.key_state e.current_row c = KEY_HELD)
    (hto : e.stuck_key_timeout < u32sub (now % U32) (e.key_timestamp e.current_row c))
    (hnop : ∀ j : Nat, e.key_state e.current_row j ≠ KEY_PRESSED) :
    (scan_timer_callback raw now st e).error_head = e.error_head ∧
    (scan_timer_callback raw now st e).error_buf = e.error_buf ∧
    (scan_timer_callback raw now st e).cb_error_log = e.cb_error_log ∧
    (scan_timer_callback raw now st e).stats.total_errors = e.stats.total_errors := by
  have hfold := foldl_process_col_preserve raw (now % U32) e.current_row
    (fun x => (∀ j : Nat, x.key_state e.current_row j ≠ KEY_PRESSED) ∧
      x.error_head = e.error_head ∧ x.error_buf = e.error_buf ∧
      x.cb_error_log = e.cb_error_log ∧ x.stats.total_errors = e.stats.total_errors)
    (fun x col hx => by
      obtain ⟨f1, f2, f3, f4⟩ :=
        process_col_error_frame_of_not_pressed raw (now % U32) e.current_row x col (hx.1 col)
      exact ⟨fun j hj => hx.1 j
          (process_col_no_new_pressed raw (now % U32) e.current_row x col e.current_row j hj),
        f1.trans hx.2.1, f2.trans hx.2.2.1, f3.trans hx.2.2.2.1, f4.trans hx.2.2.2.2⟩)
    (List.range MATRIX_COLS) (bump_total_scans e) ⟨hnop, rfl, rfl, rfl, rfl⟩
  obtain ⟨-, g1, g2, g3, g4⟩ := hfold
  unfold scan_timer_callback
  simp only [update_scan_time_stats_error_head, update_scan_time_stats_error_buf,
    update_scan_time_stats_cb_error_log, update_scan_time_stats_total_errors,
    bump_total_scans_current_row]
  exact ⟨g1, g2, g3, g4⟩

/-- Witness for C3: cell (0,0) Held since time 0, stuck detection enabled
with the default 5000 ms timeout, scanned at time 10000 with the contact
still closed — no error volume changes. -/
theorem C3_no_stuck_error_while_held_witness :
    (scan_timer_callback rawClosed 10000 5 heldCellEngine).error_head = heldCellEngine.error_head ∧
    (scan_timer_callback rawClosed 10000 5 heldCellEngine).error_buf = heldCellEngine.error_buf ∧
    (scan_timer_callback rawClosed 10000 5 heldCellEngine).cb_error_log = heldCellEngine.cb_error_log ∧
    (scan_timer_callback rawClosed 10000 5 heldCellEngine).stats.total_errors = heldCellEngine.stats.total_errors :=
  C3_no_stuck_error_while_held rawClosed 10000 5 heldCellEngine 0 rfl (by decide) (by decide)
    (by
      intro j
      by_cases hj : j = 0 <;>
        simp [heldCellEngine, matrix_robust_init, hj, KEY_HELD, KEY_PRESSED, KEY_IDLE])

/-- Claim C4.  The claim states that a press confirmation in a ghost
configuration emits a GhostKey error.  On the code, in the documented
ghost configuration (two confirmed keys in row 1, two in column 1, with
cell (1,1) contact closed since time 0 and the 20 ms window long expired
at time 1000), `detect_ghost_key` does classify cell (1,1) as a ghost,
yet a scan step of row 1 emits no error at all — the press-confirmation
branch that consults the ghost detector is unreachable — while the cell
does stay Idle. -/
theorem C4_ghost_path_dead :
    detect_ghost_key ghostEngine 1 1 = true ∧
    DEBOUNCE_PRESS_MS ≤ u32sub 1000 (ghostEngine.key_timestamp 1 1) ∧
    (scan_timer_callback rawClosed 1000 5 ghostEngine).error_head = ghostEngine.error_head ∧
    (scan_timer_callback rawClosed 1000 5 ghostEngine).cb_error_log = [] ∧
    (scan_timer_callback rawClosed 1000 5 ghostEngine).stats.total_errors = 0 ∧
    (scan_timer_callback rawClosed 1000 5 ghostEngine).event_head = 0 ∧
    (scan_timer_callback rawClosed 1000 5 ghostEngine).key_state 1 1 = KEY_IDLE := by
  decide

set_option maxRecDepth 100000 in
/-- Claim C5, counterexample.  Enqueueing 32 events into the empty event
queue already overflows once (the ring keeps one slot empty), and the
drain sequence is E1..E31, not E1..E32 as the claim requires. -/
theorem C5_capacity_32_counterexample :
    drainEvents 40 (enqueueEvents ((List.range 32).map mkEv) matrix_robust_init) ≠
      (List.range 32).map mkEv ∧
    (enqueueEvents ((List.range 32).map mkEv) matrix_robust_init).stats.queue_overflows = 1 := by
  decide

set_option maxRecDepth 100000 in
/-- Claim C5, amended.  The usable capacity of the 32-slot event ring is
31: enqueueing E1..E31 from empty and draining yields E1..E31 in FIFO
order with no overflow; the 32nd enqueue before any drain increments
`queue_overflows` by exactly 1, drops that newest item, and leaves the
buffer intact, so E1 is still the first event drained and the drain
sequence is still E1..E31. -/
theorem C5_fifo_31_and_overflow_at_32 :
    drainEvents 40 q31Engine = (List.range 31).map mkEv ∧
    q31Engine.stats.queue_overflows = 0 ∧
    (enqueue_event (mkEv 31) q31Engine).stats.queue_overflows = 1 ∧
    (enqueue_event (mkEv 31) q31Engine).event_head = q31Engine.event_head ∧
    (enqueue_event (mkEv 31) q31Engine).event_tail = q31Engine.event_tail ∧
    (matrix_robust_get_event (enqueue_event (mkEv 31) q31Engine)).1 = some (mkEv 0) ∧
    drainEvents 40 (enqueue_event (mkEv 31) q31Engine) = (List.range 31).map mkEv := by
  decide

/-- Claim C6, counterexample.  The claim states that a full-buffer enqueue
increments an overflow counter for both queues.  Enqueueing into the full
error ring (7 items in the 8-slot ring) changes nothing at all: the whole
statistics record — `queue_overflows` included — and the ring indices are
untouched. -/
theorem C6_error_overflow_uncounted_counterexample :
    (enqueue_error (mkEr 7) errFullEngine).stats = errFullEngine.stats ∧
    errFullEngine.stats.queue_overflows = 0 ∧
    (enqueue_error (mkEr 7) errFullEngine).stats.queue_overflows = 0 ∧
    (enqueue_error (mkEr 7) errFullEngine).error_head = errFullEngine.error_head ∧
    (enqueue_error (mkEr 7) errFullEngine).error_tail = errFullEngine.error_tail ∧
    (enqueue_error (mkEr 7) errFullEngine).error_head = 7 := by
  decide

/-- Claim C6, amended.  Enqueueing into a full buffer drops the new item,
never blocks and never grows the buffer, for both queues; but only the
event queue increments `queue_overflows` — a full-ring `enqueue_error`
returns the engine completely unchanged, with no overflow accounting. -/
theorem C6_full_enqueue_drops (e : Engine) (ev : KeyEvent) (er : ErrorEvent)
    (hev : (e.event_head + 1) % EVENT_QUEUE_SIZE = e.event_tail)
    (her : (e.error_head + 1) % ERROR_QUEUE_SIZE = e.error_tail) :
    enqueue_event ev e =
      { e with stats := { e.stats with queue_overflows := u32add1 e.stats.queue_overflows } } ∧
    enqueue_error er e = e := by
  constructor
  · unfold enqueue_event
    rw [if_pos hev]
  · unfold enqueue_error
    rw [if_pos her]

/-- Witness for C6: both rings of `bothFullEngine` are full. -/
theorem C6_full_enqueue_drops_witness :
    enqueue_event (mkEv 0) bothFullEngine =
      { bothFullEngine with stats :=
        { bothFullEngine.stats with queue_overflows := u32add1 bothFullEngine.stats.queue_overflows } } ∧
    enqueue_error (mkEr 0) bothFullEngine = bothFullEngine :=
  C6_full_enqueue_drops bothFullEngine (mkEv 0) (mkEr 0) (by decide) (by decide)

/-- Claim C7, counterexample.  The claim states that a registered callback
bypasses the queue path for its event class entirely.  With the error
callback registered, `enqueue_error` still stores the item in the error
ring and advances its head — the callback is invoked in addition, not
instead. -/
theorem C7_error_queue_not_bypassed_counterexample :
    cbEngine.error_callback = true ∧
    cbEngine.error_head = 0 ∧
    (enqueue_error (mkEr 0) cbEngine).error_head = 1 ∧
    (enqueue_error (mkEr 0) cbEngine).error_buf 0 = mkEr 0 ∧
    (enqueue_error (mkEr 0) cbEngine).cb_error_log = [mkEr 0] := by
  decide

/-- Claim C7, amended.  A registered key callback is invoked instead of
enqueueing and the event-queue path is bypassed for key events; a
registered error callback does not bypass the error queue: a non-full
`enqueue_error` still stores the item and advances the head, invoking the
callback after enqueueing. -/
theorem C7_delivery_modes (e : Engine) (ev : KeyEvent) (er : ErrorEvent)
    (hk : e.key_callback = true) (he : e.error_callback = true)
    (hnf : (e.error_head + 1) % ERROR_QUEUE_SIZE ≠ e.error_tail) :
    deliver_key_event ev e = { e with cb_key_log := e.cb_key_log ++ [ev] } ∧
    enqueue_error er e =
      { e with error_buf := upd1 e.error_buf e.error_head er,
               error_head := (e.error_head + 1) % ERROR_QUEUE_SIZE,
               stats := { e.stats with total_errors := u32add1 e.stats.total_errors },
               cb_error_log := e.cb_error_log ++ [er] } := by
  constructor
  · unfold deliver_key_event
    rw [if_pos hk]
  · unfold enqueue_error
    rw [if_neg hnf, if_pos he]

/-- Witness for C7: both callbacks registered, error ring empty. -/
theorem C7_delivery_modes_witness :
    deliver_key_event (mkEv 0) cbEngine =
      { cbEngine with cb_key_log := cbEngine.cb_key_log ++ [mkEv 0] } ∧
    enqueue_error (mkEr 0) cbEngine =
      { cbEngine with error_buf := upd1 cbEngine.error_buf cbEngine.error_head (mkEr 0),
                      error_head := (cbEngine.error_head + 1) % ERROR_QUEUE_SIZE,
                      stats := { cbEngine.stats with total_errors := u32add1 cbEngine.stats.total_errors },
                      cb_error_log := cbEngine.cb_error_log ++ [mkEr 0] } :=
  C7_delivery_modes cbEngine (mkEv 0) (mkEr 0) rfl rfl (by decide)

/-- Claim C8, counterexample.  The claim states that the wake-edge
transition from LowPower to Active disarms the wake source.  After
`enter_low_power` and a wake edge, scanning has resumed but the wake
interrupts are still armed: `gpio_interrupt_callback` only calls
`matrix_robust_start` and never `matrix_robust_disable_wake_interrupt`. -/
theorem C8_wake_leaves_armed_counterexample :
    (gpio_interrupt_callback (matrix_robust_enter_low_power activeEngine)).scanning_active = true ∧
    (gpio_interrupt_callback (matrix_robust_enter_low_power activeEngine)).wake_armed = true := by
  decide

/-- Claim C8, amended.  After `enter_low_power` (scan source stopped, wake
source armed), a wake edge on any column resumes periodic scanning without
an explicit `exit_low_power` call, but does not disarm the wake source;
only `exit_low_power` disarms it. -/
theorem C8_wake_resumes_scanning (e : Engine) (h : e.scanning_active = true) :
    (matrix_robust_enter_low_power e).scanning_active = false ∧
    (matrix_robust_enter_low_power e).wake_armed = true ∧
    (gpio_interrupt_callback (matrix_robust_enter_low_power e)).scanning_active = true ∧
    (gpio_interrupt_callback (matrix_robust_enter_low_power e)).wake_armed = true ∧
    (matrix_robust_exit_low_power (matrix_robust_enter_low_power e)).wake_armed = false ∧
    (matrix_robust_exit_low_power (matrix_robust_enter_low_power e)).scanning_active = true := by
  unfold matrix_robust_exit_low_power gpio_interrupt_callback matrix_robust_enter_low_power
    matrix_robust_start matrix_robust_stop matrix_robust_enable_wake_interrupt
    matrix_robust_disable_wake_interrupt
  simp [h]

/-- Witness for C8: the actively scanning engine. -/
theorem C8_wake_resumes_scanning_witness :
    (matrix_robust_enter_low_power activeEngine).scanning_active = false ∧
    (matrix_robust_enter_low_power activeEngine).wake_armed = true ∧
    (gpio_interrupt_callback (matrix_robust_enter_low_power activeEngine)).scanning_active = true ∧
    (gpio_interrupt_callback (matrix_robust_enter_low_power activeEngine)).wake_armed = true ∧
    (matrix_robust_exit_low_power (matrix_robust_enter_low_power activeEngine)).wake_armed = false ∧
    (matrix_robust_exit_low_power (matrix_robust_enter_low_power activeEngine)).scanning_active = true :=
  C8_wake_resumes_scanning activeEngine rfl

theorem u32add1_step_bound (k : Nat) {y x base : Nat}
    (hy : y = x ∨ y = u32add1 x) (hx1 : base ≤ x) (hx2 : x ≤ base + k)
    (hb : base + k + 1 < U32) : base ≤ y ∧ y ≤ base + (k + 1) := by
  unfold u32add1 U32 at *
  rcases hy with rfl | rfl <;> constructor <;> omega

/-- A scan step changes `total_errors` by at most four `uint32_t`
increments (one possible stuck-key error per column), so with headroom it
never decreases. -/
theorem scan_total_errors_bound (raw : Nat → Nat → Bool) (now st : Nat) (e : Engine)
    (h : e.stats.total_errors + 4 < U32) :
    e.stats.total_errors ≤ (scan_timer_callback raw now st e).stats.total_errors ∧
    (scan_timer_callback raw now st e).stats.total_errors ≤ e.stats.total_errors + 4 := by
  have hrange : List.range MATRIX_COLS = [0, 1, 2, 3] := rfl
  unfold scan_timer_callback
  rw [hrange]
  simp only [List.foldl_cons, List.foldl_nil, update_scan_time_stats_total_errors,
    bump_total_scans_current_row]
  have q1 := process_col_total_errors raw (now % U32) e.current_row (bump_total_scans e) 0
  have q2 := process_col_total_errors raw (now % U32) e.current_row
    (process_col raw (now % U32) e.current_row (bump_total_scans e) 0) 1
  have q3 := process_col_total_errors raw (now % U32) e.current_row
    (process_col raw (now % U32) e.current_row
      (process_col raw (now % U32) e.current_row (bump_total_scans e) 0) 1) 2
  have q4 := process_col_total_errors raw (now % U32) e.current_row
    (process_col raw (now % U32) e.current_row
      (process_col raw (now % U32) e.current_row
        (process_col raw (now % U32) e.current_row (bump_total_scans e) 0) 1) 2) 3
  have h0 : (bump_total_scans e).stats.total_errors = e.stats.total_errors := rfl
  rw [h0] at q1
  have b1 := u32add1_step_bound 0 q1 (Nat.le_refl _) (Nat.le_refl _) (by omega)
  have b2 := u32add1_step_bound 1 q2 b1.1 b1.2 (by omega)
  have b3 := u32add1_step_bound 2 q3 b2.1 b2.2 (by omega)
  have b4 := u32add1_step_bound 3 q4 b3.1 b3.2 (by omega)
  exact ⟨b4.1, by have := b4.2; omega⟩

/-- Claim C9, counterexample.  The counters are `uint32_t` and wrap: a
scan step taken when `total_scans` is `4294967295` resets it to `0`, a
strict decrease, so the counters are not non-decreasing across every
sequence of scan steps. -/
theorem C9_counter_wrap_counterexample :
    wrapEngine.stats.total_scans = 4294967295 ∧
    (scan_timer_callback rawOpen 0 0 wrapEngine).stats.total_scans = 0 ∧
    (scan_timer_callback rawOpen 0 0 wrapEngine).stats.total_scans <
      wrapEngine.stats.total_scans := by
  decide

/-- Claim C9, amended.  As long as each counter has headroom below the
`uint32_t` maximum (`total_scans` one increment, `total_errors` up to four
— one stuck-key error per scanned column — and `queue_overflows` one),
`total_scans`, `total_events`, `total_errors` and `queue_overflows` are
non-decreasing under a scan step, an event enqueue and an error enqueue;
draining either queue leaves the statistics unchanged, and
`reset_statistics` zeroes all statistics fields. -/
theorem C9_counters_monotone_with_headroom (raw : Nat → Nat → Bool) (now st : Nat)
    (e : Engine) (ev : KeyEvent) (er : ErrorEvent)
    (hs : e.stats.total_scans + 1 < U32)
    (herr : e.stats.total_errors + 4 < U32)
    (ho : e.stats.queue_overflows + 1 < U32) :
    statsLE e.stats (scan_timer_callback raw now st e).stats ∧
    statsLE e.stats (enqueue_event ev e).stats ∧
    statsLE e.stats (enqueue_error er e).stats ∧
    (matrix_robust_get_event e).2.stats = e.stats ∧
    (matrix_robust_get_error e).2.stats = e.stats ∧
    (matrix_robust_reset_statistics e).stats = zeroStats := by
  refine ⟨?_, ?_, ?_, ?_, ?_, rfl⟩
  · obtain ⟨b1, b2, b3, b4, b5, b6, b7, b8⟩ := scan_timer_callback_key_frame raw now st e
    have hmax : (scan_timer_callback raw now st e).stats.max_scan_time_us =
        (scan_timer_callback raw now st e).stats.max_scan_time_us := rfl
    refine ⟨?_, by rw [b6], (scan_total_errors_bound raw now st e herr).1, by rw [b7]⟩
    rw [b8, u32add1_of_lt hs]
    omega
  · unfold enqueue_event
    split_ifs
    · refine ⟨Nat.le_refl _, Nat.le_refl _, Nat.le_refl _, ?_⟩
      show e.stats.queue_overflows ≤ u32add1 e.stats.queue_overflows
      rw [u32add1_of_lt ho]
      omega
    · exact ⟨Nat.le_refl _, Nat.le_refl _, Nat.le_refl _, Nat.le_refl _⟩
  · unfold enqueue_error
    split_ifs
    · exact ⟨Nat.le_refl _, Nat.le_refl _, Nat.le_refl _, Nat.le_refl _⟩
    · refine ⟨Nat.le_refl _, Nat.le_refl _, ?_, Nat.le_refl _⟩
      show e.stats.total_errors ≤ u32add1 e.stats.total_errors
      rw [u32add1_of_lt (by unfold U32 at *; omega)]
      omega
    · refine ⟨Nat.le_refl _, Nat.le_refl _, ?_, Nat.le_refl _⟩
      show e.stats.total_errors ≤ u32add1 e.stats.total_errors
      rw [u32add1_of_lt (by unfold U32 at *; omega)]
      omega
  · unfold matrix_robust_get_event
    split_ifs <;> rfl
  · unfold matrix_robust_get_error
    split_ifs <;> rfl

/-- Witness for C9: the freshly initialised engine has all counters zero,
far below the headroom bounds. -/
theorem C9_counters_monotone_with_headroom_witness :
    statsLE matrix_robust_init.stats (scan_timer_callback rawClosed 7 5 matrix_robust_init).stats ∧
    statsLE matrix_robust_init.stats (enqueue_event (mkEv 0) matrix_robust_init).stats ∧
    statsLE matrix_robust_init.stats (enqueue_error (mkEr 0) matrix_robust_init).stats ∧
    (matrix_robust_get_event matrix_robust_init).2.stats = matrix_robust_init.stats ∧
    (matrix_robust_get_error matrix_robust_init).2.stats = matrix_robust_init.stats ∧
    (matrix_robust_reset_statistics matrix_robust_init).stats = zeroStats :=
  C9_counters_monotone_with_headroom rawClosed 7 5 matrix_robust_init (mkEv 0) (mkEr 0)
    (by decide) (by decide) (by decide)

/-- Claim C10.  The ghost-buffer invariant: after initialisation every
`pressed_keys` entry is `1` exactly on the cells whose `key_state` is
`KEY_PRESSED` or `KEY_HELD`, every scan step preserves this, and under the
invariant the ghost detector's row and column counts coincide with the
number of debounce-confirmed pressed cells in that row or column. -/
theorem C10_pressed_keys_sync :
    GhostSync matrix_robust_init ∧
    (∀ (e : Engine) (raw : Nat → Nat → Bool) (now st : Nat),
      GhostSync e → GhostSync (scan_timer_callback raw now st e)) ∧
    (∀ (e : Engine) (row : Nat), row < 4 → GhostSync e →
      keys_in_row e row = debounced_pressed_in_row e row) ∧
    (∀ (e : Engine) (col : Nat), col < 4 → GhostSync e →
      keys_in_col e col = debounced_pressed_in_col e col) := by
  refine ⟨by decide, ?_, ?_, ?_⟩
  · intro e raw now st h
    have hfold := foldl_process_col_preserve raw (now % U32) e.current_row GhostSync
      (fun x col hx => process_col_ghost_sync raw (now % U32) e.current_row x col hx)
      (List.range MATRIX_COLS) (bump_total_scans e) (fun r c => h r c)
    intro r c
    unfold scan_timer_callback
    simp only [update_scan_time_stats_pressed_keys, update_scan_time_stats_key_state,
      bump_total_scans_current_row]
    exact hfold r c
  · intro e row hr h
    unfold keys_in_row debounced_pressed_in_row
    refine List.countP_congr ?_
    intro a ha
    have hc : a < 4 := by simpa [MATRIX_COLS] using List.mem_range.mp ha
    have hgs : e.pressed_keys row a =
        if e.key_state row a = KEY_PRESSED ∨ e.key_state row a = KEY_HELD then 1 else 0 :=
      h ⟨row, hr⟩ ⟨a, hc⟩
    by_cases hcond : e.key_state row a = KEY_PRESSED ∨ e.key_state row a = KEY_HELD
    · rw [if_pos hcond] at hgs
      simp [hgs, hcond]
    · rw [if_neg hcond] at hgs
      simp [hgs, hcond]
  · intro e col hcl h
    unfold keys_in_col debounced_pressed_in_col
    refine List.countP_congr ?_
    intro a ha
    have hc : a < 4 := by simpa [MATRIX_ROWS] using List.mem_range.mp ha
    have hgs : e.pressed_keys a col =
        if e.key_state a col = KEY_PRESSED ∨ e.key_state a col = KEY_HELD then 1 else 0 :=
      h ⟨a, hc⟩ ⟨col, hcl⟩
    by_cases hcond : e.key_state a col = KEY_PRESSED ∨ e.key_state a col = KEY_HELD
    · rw [if_pos hcond] at hgs
      simp [hgs, hcond]
    · rw [if_neg hcond] at hgs
      simp [hgs, hcond]

/-- Witness for C10: the invariant holds after a scan step from the
initialised engine, and the counts agree on it. -/
theorem C10_pressed_keys_sync_witness :
    GhostSync (scan_timer_callback rawClosed 0 5 matrix_robust_init) ∧
    keys_in_row matrix_robust_init 0 = debounced_pressed_in_row matrix_robust_init 0 ∧
    keys_in_col matrix_robust_init 0 = debounced_pressed_in_col matrix_robust_init 0 :=
  ⟨C10_pressed_keys_sync.2.1 matrix_robust_init rawClosed 0 5 C10_pressed_keys_sync.1,
   C10_pressed_keys_sync.2.2.1 matrix_robust_init 0 (by decide) C10_pressed_keys_sync.1,
   C10_pressed_keys_sync.2.2.2 matrix_robust_init 0 (by decide) C10_pressed_keys_sync.1⟩

end MatrixRobust
